import Mathlib

/-!
The navigation data model of react-navigation `TypeDefinition.js`

`src/TypeDefinition.js` declares Flow types only.  Each declared type is
embedded as an executable membership test on JavaScript values: a value
belongs to the type exactly when the test returns `true`.

* object types `{ f: T, g?: U }` are inexact (Flow's default for `{ }`): the
  listed properties are checked and further properties are allowed;
* `f: T` is a required property, `f?: T` an optional one, `?T` a maybe type;
* `A | B` is `||`, `A & B` is `&&`, `Array<T>` checks every element,
  `{ [key: string]: T }` checks every property value;
* a string-literal type such as `'Navigation/BACK'` is equality with that string.

Values come in two forms.  A `JsVal` is a finite tree, the form of an object
literal; the claims about single values and about unions are settled on it.
An `HVal` in a `Heap` is a value of an object graph, where an object can be
reached from itself; the recursive types `NavigationNavigateAction` and
`NavigationRoute` are checked there by unfolding the declaration to every
depth, and what the claims say of chains of sub-actions and of finiteness is
settled on it.
-/

/-- JavaScript values as they occur in navigation states and actions, as finite
trees.  A property holding `undefined` is represented by the property being
absent, and an argument or result that is `undefined` by `none`, so there is no
separate constructor for it.  Numbers are the integers, which is all that route
indices and the documented examples need. -/
inductive JsVal where
  | null : JsVal
  | bool (b : Bool) : JsVal
  | num (n : Int) : JsVal
  | str (s : String) : JsVal
  | arr (items : List JsVal) : JsVal
  | obj (props : List (String × JsVal)) : JsVal

namespace JsVal

/-- Property read `v.k`: the first binding of `k` in an object, `none` when the
property is absent or `v` is not an object. -/
def get : JsVal → String → Option JsVal
  | obj props, k => props.lookup k
  | _, _ => none

/-- Flow `string`. -/
def isString : JsVal → Bool
  | str _ => true
  | _ => false

/-- Flow `number`. -/
def isNumber : JsVal → Bool
  | num _ => true
  | _ => false

/-- Flow maybe type `?T`: the empty value or a `T`. -/
def maybe (isT : JsVal → Bool) : JsVal → Bool
  | null => true
  | v => isT v

/-- Required property `f: T`, applied to the result of reading `f`. -/
def required (isT : JsVal → Bool) : Option JsVal → Bool
  | some v => isT v
  | none => false

/-- Optional property `f?: T`, applied to the result of reading `f`. -/
def optional (isT : JsVal → Bool) : Option JsVal → Bool
  | some v => isT v
  | none => true

/-- Flow `Array<T>`. -/
def isArrayOf (isT : JsVal → Bool) : JsVal → Bool
  | arr items => items.all isT
  | _ => false

/-- The property `type: '<tag>'` of an action object type. -/
def hasTag (props : List (String × JsVal)) (tag : String) : Bool :=
  match props.lookup "type" with
  | some (str t) => t == tag
  | _ => false

/-- Flow type `NavigationParams = { [key: string]: string }` (lines 162-164). -/
def isNavigationParams : JsVal → Bool
  | obj props => props.all fun p => isString p.2
  | _ => false

/-- Flow type `NavigationLeafRoute = { key: string, routeName: string, path?: string,
params?: NavigationParams }` (lines 42-62). -/
def isNavigationLeafRoute : JsVal → Bool
  | obj props =>
      required isString (props.lookup "key") &&
      required isString (props.lookup "routeName") &&
      optional isString (props.lookup "path") &&
      optional isNavigationParams (props.lookup "params")
  | _ => false

mutual
/-- Flow type `NavigationRoute = NavigationLeafRoute | NavigationStateRoute` (line 40).
The second alternative is written out, `NavigationLeafRoute & { index: number,
routes: Array<NavigationRoute> }`, so that the recursion is on the elements of
`routes`; `isNavigationRoute_eq_union` restores the declared form. -/
def isNavigationRoute : JsVal → Bool
  | obj props =>
      isNavigationLeafRoute (obj props) ||
      (isNavigationLeafRoute (obj props) &&
        (required isNumber (props.lookup "index") && routesProp props))
  | _ => false
/-- The required property `routes: Array<NavigationRoute>`, read off the
property list: the first binding of `routes` must be an array of routes. -/
def routesProp : List (String × JsVal) → Bool
  | [] => false
  | (k, v) :: rest => if "routes" == k then routeArray v else routesProp rest
/-- Flow type `Array<NavigationRoute>`. -/
def routeArray : JsVal → Bool
  | arr items => allRoutes items
  | _ => false
/-- Every element is a `NavigationRoute`. -/
def allRoutes : List JsVal → Bool
  | [] => true
  | r :: rest => isNavigationRoute r && allRoutes rest
end

/-- The object type `{ index: number, routes: Array<NavigationRoute> }`, which
is both the body of `NavigationState` and the second operand of
`NavigationStateRoute`. -/
def hasIndexAndRoutes : JsVal → Bool
  | obj props => required isNumber (props.lookup "index") && routesProp props
  | _ => false

/-- Flow type `NavigationState = { index: number, routes: Array<NavigationRoute> }`
(lines 32-38). -/
def isNavigationState (v : JsVal) : Bool := hasIndexAndRoutes v

/-- Flow type `NavigationStateRoute = NavigationLeafRoute & { index: number,
routes: Array<NavigationRoute> }` (lines 64-67). -/
def isNavigationStateRoute (v : JsVal) : Bool :=
  isNavigationLeafRoute v && hasIndexAndRoutes v

mutual
/-- Flow type `NavigationNavigateAction = { type: 'Navigation/NAVIGATE', routeName: string,
params?: NavigationParams, action?: NavigationNavigateAction }` (lines 166-173). -/
def isNavigationNavigateAction : JsVal → Bool
  | obj props =>
      hasTag props "Navigation/NAVIGATE" &&
      required isString (props.lookup "routeName") &&
      optional isNavigationParams (props.lookup "params") &&
      actionProp props
  | _ => false
/-- The optional property `action?: NavigationNavigateAction`, read off the
property list: the first binding of `action`, when there is one, must be a
navigate action. -/
def actionProp : List (String × JsVal) → Bool
  | [] => true
  | (k, v) :: rest => if "action" == k then isNavigationNavigateAction v else actionProp rest
end

/-- Flow type `NavigationBackAction = { type: 'Navigation/BACK', key?: ?string }`
(lines 175-178). -/
def isNavigationBackAction : JsVal → Bool
  | obj props =>
      hasTag props "Navigation/BACK" &&
      optional (maybe isString) (props.lookup "key")
  | _ => false

/-- Flow type `NavigationSetParamsAction = { type: 'Navigation/SET_PARAMS', key: string,
params?: NavigationParams }` (lines 180-188). -/
def isNavigationSetParamsAction : JsVal → Bool
  | obj props =>
      hasTag props "Navigation/SET_PARAMS" &&
      required isString (props.lookup "key") &&
      optional isNavigationParams (props.lookup "params")
  | _ => false

/-- Flow type `NavigationInitAction = { type: 'Navigation/INIT', params?: NavigationParams }`
(lines 190-193). -/
def isNavigationInitAction : JsVal → Bool
  | obj props =>
      hasTag props "Navigation/INIT" &&
      optional isNavigationParams (props.lookup "params")
  | _ => false

/-- Flow type `NavigationResetAction = { type: 'Navigation/RESET', index: number,
key?: ?string, actions: Array<NavigationNavigateAction> }` (lines 195-200). -/
def isNavigationResetAction : JsVal → Bool
  | obj props =>
      hasTag props "Navigation/RESET" &&
      required isNumber (props.lookup "index") &&
      optional (maybe isString) (props.lookup "key") &&
      required (isArrayOf isNavigationNavigateAction) (props.lookup "actions")
  | _ => false

/-- Flow type `NavigationUriAction = { type: 'Navigation/URI', uri: string }`
(lines 202-205). -/
def isNavigationUriAction : JsVal → Bool
  | obj props =>
      hasTag props "Navigation/URI" &&
      required isString (props.lookup "uri")
  | _ => false

/-- Flow type `NavigationStackAction = NavigationInitAction | NavigationNavigateAction |
NavigationBackAction | NavigationSetParamsAction | NavigationResetAction`
(lines 238-243). -/
def isNavigationStackAction (v : JsVal) : Bool :=
  isNavigationInitAction v ||
  isNavigationNavigateAction v ||
  isNavigationBackAction v ||
  isNavigationSetParamsAction v ||
  isNavigationResetAction v

/-- Flow type `NavigationTabAction = NavigationInitAction | NavigationNavigateAction |
NavigationBackAction` (lines 245-248). -/
def isNavigationTabAction (v : JsVal) : Bool :=
  isNavigationInitAction v ||
  isNavigationNavigateAction v ||
  isNavigationBackAction v

/-- Flow type `NavigationAction = NavigationInitAction | NavigationStackAction |
NavigationTabAction` (lines 250-253). -/
def isNavigationAction (v : JsVal) : Bool :=
  isNavigationInitAction v ||
  isNavigationStackAction v ||
  isNavigationTabAction v

/-- The string held by the `type` property of an object, when there is one:
the tag that discriminates the action variants. -/
def tagOf : JsVal → Option String
  | obj props =>
    match props.lookup "type" with
    | some (str t) => some t
    | _ => none
  | _ => none

/-- Parameter list of `NavigationScreenProp.navigate` (lines 326-330):
`routeName: string, params?: NavigationParams, action?: NavigationAction`.
An omitted argument is `none`. -/
def navigateAccepts (routeName : JsVal) (params action : Option JsVal) : Bool :=
  isString routeName &&
  optional isNavigationParams params &&
  optional isNavigationAction action

/-- The object literal `{ type: 'Navigation/NAVIGATE', routeName, action }`: a
navigate action that stores `action` as its sub-action. -/
def withSubAction (routeName : String) (action : JsVal) : JsVal :=
  obj [("type", str "Navigation/NAVIGATE"), ("routeName", str routeName), ("action", action)]

/-- The elements of the `routes` property of a state or state route. -/
def routesOf (s : JsVal) : List JsVal :=
  match s.get "routes" with
  | some (arr items) => items
  | _ => []

/-- The `key` of a route, when it is a string. -/
def keyOf (r : JsVal) : Option String :=
  match r.get "key" with
  | some (str k) => some k
  | _ => none

/-- The index invariant in the words of the specification,
`0 ≤ index < length(routes)`, as a test on a value. -/
def indexInRange (s : JsVal) : Bool :=
  match s.get "index" with
  | some (num i) => decide (0 ≤ i) && decide (i < ((routesOf s).length : Int))
  | _ => false

/-- The key invariant in the words of the specification, "`key` is unique
among siblings": the keys of the routes at distinct positions differ. -/
def siblingKeysDistinct (s : JsVal) : Bool :=
  decide (((routesOf s).map keyOf).Pairwise fun a b => a ≠ b)

/-- The properties of `v` named in `names` that are present, in that order. -/
def pick (v : JsVal) (names : List String) : List (String × JsVal) :=
  names.filterMap fun k => (v.get k).map fun x => (k, x)

/-- Property names declared by `NavigationLeafRoute`. -/
def leafRouteProps : List String := ["key", "routeName", "path", "params"]

/-- Property names declared by `NavigationState`. -/
def stateProps : List String := ["index", "routes"]

/-- The leaf route inside a state route: its key, routeName, optional path
and optional params. -/
def leafRouteOf (r : JsVal) : JsVal := obj (pick r leafRouteProps)

/-- The navigation state inside a state route: its index and routes. -/
def stateOf (r : JsVal) : JsVal := obj (pick r stateProps)

/-- A leaf route extended with a navigation state: the object that has the
leaf route's declared properties followed by the state's. -/
def stateRouteOf (l s : JsVal) : JsVal := obj (pick l leafRouteProps ++ pick s stateProps)


/-- The claim "a new state or the unchanged-marker null" as a test on the
result of `getStateForAction`; the result `undefined` is `none`. -/
def stateOrNull (isState : JsVal → Bool) : Option JsVal → Bool
  | some null => true
  | some v => isState v
  | none => false

/-- The signature `getStateForAction: (action: Action, lastState: ?State) =>
?State` of `NavigationRouter<State, Action, Options>` (line 80), as a property
of a function.  An argument or a result, like a property that is read, may be
`undefined`, which is `none`; the maybe type `?State` there takes a `State`,
`null` or `undefined`, so it is `optional (maybe isState)`.  The type
parameters `State` and `Action` are given by their membership tests. -/
def IsGetStateForAction (isState isAction : JsVal → Bool)
    (getStateForAction : JsVal → Option JsVal → Option JsVal) : Prop :=
  ∀ action lastState, isAction action = true →
    optional (maybe isState) lastState = true →
    optional (maybe isState) (getStateForAction action lastState) = true

/-- The reducer `(action, lastState) => undefined`. -/
def undefinedReducer : JsVal → Option JsVal → Option JsVal := fun _ _ => none

/-- The reducer `(action, lastState) => lastState`, which hands back the
previous state. -/
def sameStateReducer : JsVal → Option JsVal → Option JsVal := fun _ lastState => lastState

end JsVal

/-- A value of an object graph: a primitive, or a reference to an allocated
object.  A `JsVal` is a finite tree and shares nothing; in an object graph an
object can be reached from itself (`a.action = a`, `s.routes.push(s)`), as a
JavaScript object can. -/
inductive HVal where
  | null : HVal
  | bool (b : Bool) : HVal
  | num (n : Int) : HVal
  | str (s : String) : HVal
  | ref (addr : Nat) : HVal

/-- An allocated object: an array or an object with properties. -/
inductive HObj where
  | arr (items : List HVal) : HObj
  | obj (props : List (String × HVal)) : HObj

/-- The allocated objects; an address is a position in the list. -/
abbrev Heap := List HObj

namespace Heap

/-- The properties of the object a value refers to. -/
def propsAt (h : Heap) : HVal → Option (List (String × HVal))
  | HVal.ref a =>
    match h[a]? with
    | some (HObj.obj props) => some props
    | _ => none
  | _ => none

/-- The elements of the array a value refers to. -/
def itemsAt (h : Heap) : HVal → Option (List HVal)
  | HVal.ref a =>
    match h[a]? with
    | some (HObj.arr items) => some items
    | _ => none
  | _ => none

/-- Property read `v.k` in the heap `h`. -/
def read (h : Heap) (v : HVal) (k : String) : Option HVal :=
  match propsAt h v with
  | some props => props.lookup k
  | none => none

/-- Flow `string`. -/
def isStr : HVal → Bool
  | HVal.str _ => true
  | _ => false

/-- Flow `number`. -/
def isNum : HVal → Bool
  | HVal.num _ => true
  | _ => false

/-- Required property `f: T`, applied to the result of reading `f`. -/
def requiredProp (isT : HVal → Bool) : Option HVal → Bool
  | some v => isT v
  | none => false

/-- Optional property `f?: T`, applied to the result of reading `f`. -/
def optionalProp (isT : HVal → Bool) : Option HVal → Bool
  | some v => isT v
  | none => true

/-- Flow `Array<T>`. -/
def isArrayOfAt (h : Heap) (isT : HVal → Bool) (v : HVal) : Bool :=
  match itemsAt h v with
  | some items => items.all isT
  | none => false

/-- Flow type `NavigationParams = { [key: string]: string }` (lines 162-164). -/
def isParamsAt (h : Heap) (v : HVal) : Bool :=
  match propsAt h v with
  | some props => props.all fun p => isStr p.2
  | none => false

/-- Flow type `NavigationLeafRoute` (lines 42-62). -/
def isLeafRouteAt (h : Heap) (v : HVal) : Bool :=
  requiredProp isStr (read h v "key") &&
  requiredProp isStr (read h v "routeName") &&
  optionalProp isStr (read h v "path") &&
  optionalProp (isParamsAt h) (read h v "params")

/-- Flow type `NavigationRoute = NavigationLeafRoute | NavigationStateRoute`
(lines 40, 64-67), unfolded `depth` times: a recursive type is checked on an
object graph by unfolding its declaration, and a value belongs to it when the
check succeeds at every depth. -/
def isRouteAt (h : Heap) : Nat → HVal → Bool
  | 0, _ => true
  | depth + 1, v =>
    isLeafRouteAt h v ||
    (isLeafRouteAt h v &&
      (requiredProp isNum (read h v "index") &&
        requiredProp (isArrayOfAt h (isRouteAt h depth)) (read h v "routes")))

/-- Flow type `NavigationState = { index: number, routes: Array<NavigationRoute> }`
(lines 32-38), with `NavigationRoute` unfolded `depth` times. -/
def isStateAt (h : Heap) (depth : Nat) (v : HVal) : Bool :=
  (propsAt h v).isSome &&
  (requiredProp isNum (read h v "index") &&
    requiredProp (isArrayOfAt h (isRouteAt h depth)) (read h v "routes"))

/-- Membership of `NavigationState` for a value of an object graph. -/
def NavigationState (h : Heap) (v : HVal) : Prop := ∀ depth, isStateAt h depth v = true

/-- The elements of the `routes` property of a state. -/
def routesAt (h : Heap) (v : HVal) : List HVal :=
  match read h v "routes" with
  | some a => (itemsAt h a).getD []
  | none => []

/-- The property `type: '<tag>'` of an action object type. -/
def hasTagAt (h : Heap) (v : HVal) (tag : String) : Bool :=
  match read h v "type" with
  | some (HVal.str t) => t == tag
  | _ => false

/-- Flow type `NavigationNavigateAction = { type: 'Navigation/NAVIGATE',
routeName: string, params?: NavigationParams, action?: NavigationNavigateAction }`
(lines 166-173), unfolded `depth` times. -/
def isNavigateActionAt (h : Heap) : Nat → HVal → Bool
  | 0, _ => true
  | depth + 1, v =>
    hasTagAt h v "Navigation/NAVIGATE" &&
    requiredProp isStr (read h v "routeName") &&
    optionalProp (isParamsAt h) (read h v "params") &&
    optionalProp (isNavigateActionAt h depth) (read h v "action")

/-- Membership of `NavigationNavigateAction` for a value of an object graph:
the declaration holds however far it is unfolded. -/
def NavigationNavigateAction (h : Heap) (v : HVal) : Prop :=
  ∀ depth, isNavigateActionAt h depth v = true

/-- Follow the `action` property `n` times, starting from `v`; `none` as soon
as a property read finds no `action`. -/
def followAction (h : Heap) : Nat → HVal → Option HVal
  | 0, v => some v
  | n + 1, v =>
    match read h v "action" with
    | some a => followAction h n a
    | none => none

/-- The heap after `a = { type: 'Navigation/NAVIGATE', routeName: 'Home' };
a.action = a`, with `a` at address 0. -/
def selfActionHeap : Heap :=
  [HObj.obj [("type", HVal.str "Navigation/NAVIGATE"), ("routeName", HVal.str "Home"),
    ("action", HVal.ref 0)]]

/-- The heap holding `{ type: 'Navigation/NAVIGATE', routeName: 'Settings',
action: { type: 'Navigation/NAVIGATE', routeName: 'Profile' } }` at address 0
and its sub-action at address 1. -/
def nestedActionHeap : Heap :=
  [HObj.obj [("type", HVal.str "Navigation/NAVIGATE"), ("routeName", HVal.str "Settings"),
    ("action", HVal.ref 1)],
   HObj.obj [("type", HVal.str "Navigation/NAVIGATE"), ("routeName", HVal.str "Profile")]]

/-- The heap after `s = { key: 'id-0', routeName: 'Root', index: 0, routes: [] };
s.routes.push(s)`, with `s` at address 0 and its `routes` array at address 1. -/
def selfRouteHeap : Heap :=
  [HObj.obj [("key", HVal.str "id-0"), ("routeName", HVal.str "Root"),
    ("index", HVal.num 0), ("routes", HVal.ref 1)],
   HObj.arr [HVal.ref 0]]

end Heap

namespace JsVal

/-! ## Reading the recursive properties through `lookup` -/

theorem routesProp_eq (props : List (String × JsVal)) :
    routesProp props = required routeArray (props.lookup "routes") := by
  induction props with
  | nil => rfl
  | cons p rest ih =>
    obtain ⟨k, v⟩ := p
    simp only [routesProp, List.lookup_cons]
    cases h : ("routes" == k) <;> simp [ih, required]

theorem allRoutes_eq (items : List JsVal) :
    allRoutes items = items.all isNavigationRoute := by
  induction items with
  | nil => rfl
  | cons r rest ih => simp [allRoutes, ih]

theorem routeArray_eq (v : JsVal) : routeArray v = isArrayOf isNavigationRoute v := by
  cases v <;> simp [routeArray, isArrayOf, allRoutes_eq]

theorem actionProp_eq (props : List (String × JsVal)) :
    actionProp props = optional isNavigationNavigateAction (props.lookup "action") := by
  induction props with
  | nil => rfl
  | cons p rest ih =>
    obtain ⟨k, v⟩ := p
    simp only [actionProp, List.lookup_cons]
    cases h : ("action" == k) <;> simp [ih, optional]

/-- The declared form of line 40: a route is a leaf route or a state route. -/
theorem isNavigationRoute_eq_union (v : JsVal) :
    isNavigationRoute v = (isNavigationLeafRoute v || isNavigationStateRoute v) := by
  cases v <;>
    simp [isNavigationRoute, isNavigationStateRoute, hasIndexAndRoutes, isNavigationLeafRoute]

/-! ## Tags of the action variants -/

theorem hasTag_tagOf {props : List (String × JsVal)} {tag : String}
    (h : hasTag props tag = true) : tagOf (obj props) = some tag := by
  unfold hasTag at h
  unfold tagOf
  split at h
  · rename_i t heq
    simp [heq]
    simpa using h
  · simp at h

theorem tagOf_init {v : JsVal} (h : isNavigationInitAction v = true) :
    tagOf v = some "Navigation/INIT" := by
  cases v <;> simp [isNavigationInitAction] at h
  exact hasTag_tagOf h.1

theorem tagOf_navigate {v : JsVal} (h : isNavigationNavigateAction v = true) :
    tagOf v = some "Navigation/NAVIGATE" := by
  cases v <;> simp [isNavigationNavigateAction] at h
  exact hasTag_tagOf h.1.1.1

theorem tagOf_back {v : JsVal} (h : isNavigationBackAction v = true) :
    tagOf v = some "Navigation/BACK" := by
  cases v <;> simp [isNavigationBackAction] at h
  exact hasTag_tagOf h.1

theorem tagOf_setParams {v : JsVal} (h : isNavigationSetParamsAction v = true) :
    tagOf v = some "Navigation/SET_PARAMS" := by
  cases v <;> simp [isNavigationSetParamsAction] at h
  exact hasTag_tagOf h.1.1

theorem tagOf_reset {v : JsVal} (h : isNavigationResetAction v = true) :
    tagOf v = some "Navigation/RESET" := by
  cases v <;> simp [isNavigationResetAction] at h
  exact hasTag_tagOf h.1.1.1

theorem tagOf_uri {v : JsVal} (h : isNavigationUriAction v = true) :
    tagOf v = some "Navigation/URI" := by
  cases v <;> simp [isNavigationUriAction] at h
  exact hasTag_tagOf h.1

/-- The union of line 250 flattened: the five variants it reaches. -/
theorem isNavigationAction_iff (v : JsVal) :
    isNavigationAction v = true ↔
      isNavigationInitAction v = true ∨ isNavigationNavigateAction v = true ∨
      isNavigationBackAction v = true ∨ isNavigationSetParamsAction v = true ∨
      isNavigationResetAction v = true := by
  simp only [isNavigationAction, isNavigationStackAction, isNavigationTabAction,
    Bool.or_eq_true]
  tauto

/-- The tag of a `NavigationAction` is one of the five tags of its variants. -/
theorem tagOf_action {v : JsVal} (h : isNavigationAction v = true) :
    tagOf v = some "Navigation/INIT" ∨ tagOf v = some "Navigation/NAVIGATE" ∨
    tagOf v = some "Navigation/BACK" ∨ tagOf v = some "Navigation/SET_PARAMS" ∨
    tagOf v = some "Navigation/RESET" := by
  rcases (isNavigationAction_iff v).1 h with h | h | h | h | h
  · exact Or.inl (tagOf_init h)
  · exact Or.inr (Or.inl (tagOf_navigate h))
  · exact Or.inr (Or.inr (Or.inl (tagOf_back h)))
  · exact Or.inr (Or.inr (Or.inr (Or.inl (tagOf_setParams h))))
  · exact Or.inr (Or.inr (Or.inr (Or.inr (tagOf_reset h))))

/-- C1 (as the code has it): `NavigationAction` is the union of exactly five
tagged variants, INIT, NAVIGATE, BACK, SET_PARAMS and RESET, and no
`NavigationUriAction` belongs to it. -/
theorem navigationAction_five_variants (v : JsVal) :
    (isNavigationAction v = true ↔
      isNavigationInitAction v = true ∨ isNavigationNavigateAction v = true ∨
      isNavigationBackAction v = true ∨ isNavigationSetParamsAction v = true ∨
      isNavigationResetAction v = true) ∧
    (isNavigationUriAction v = true → isNavigationAction v = false) := by
  refine ⟨isNavigationAction_iff v, fun hu => ?_⟩
  have ht := tagOf_uri hu
  cases hv : isNavigationAction v
  · rfl
  · rcases tagOf_action hv with h | h | h | h | h <;>
      · rw [ht] at h
        exact absurd h (by decide)

/-- C1 (as stated) fails: `{ type: 'Navigation/URI', uri: 'app://home' }` is a
`NavigationUriAction` and is not a `NavigationAction`. -/
theorem uriAction_not_navigationAction :
    isNavigationUriAction (obj [("type", str "Navigation/URI"), ("uri", str "app://home")]) = true ∧
    isNavigationAction (obj [("type", str "Navigation/URI"), ("uri", str "app://home")]) = false := by
  decide

/-- C7: the documented params example `{ car_id: 123 }` is rejected by
`NavigationParams = { [key: string]: string }`, and so is a leaf route or a
navigate action that carries it as `params`; with the value written as the
string `'123'` all three are accepted. -/
theorem docParamsExample_rejected :
    isNavigationParams (obj [("car_id", num 123)]) = false ∧
    isNavigationLeafRoute (obj [("key", str "id-1"), ("routeName", str "Car"),
      ("params", obj [("car_id", num 123)])]) = false ∧
    isNavigationNavigateAction (obj [("type", str "Navigation/NAVIGATE"),
      ("routeName", str "Car"), ("params", obj [("car_id", num 123)])]) = false ∧
    isNavigationParams (obj [("car_id", str "123")]) = true ∧
    isNavigationLeafRoute (obj [("key", str "id-1"), ("routeName", str "Car"),
      ("params", obj [("car_id", str "123")])]) = true ∧
    isNavigationNavigateAction (obj [("type", str "Navigation/NAVIGATE"),
      ("routeName", str "Car"), ("params", obj [("car_id", str "123")])]) = true := by
  decide

/-- C8: `NavigationAction` and `NavigationStackAction` admit the same values;
every `NavigationInitAction` and every `NavigationTabAction` is a
`NavigationStackAction`; no SET_PARAMS or RESET action is a
`NavigationTabAction`, and such stack actions exist. -/
theorem navigationAction_eq_stackAction :
    (∀ v, isNavigationAction v = isNavigationStackAction v) ∧
    (∀ v, isNavigationInitAction v = true → isNavigationStackAction v = true) ∧
    (∀ v, isNavigationTabAction v = true → isNavigationStackAction v = true) ∧
    (∀ v, isNavigationSetParamsAction v = true ∨ isNavigationResetAction v = true →
      isNavigationStackAction v = true ∧ isNavigationTabAction v = false) ∧
    (∃ v, isNavigationSetParamsAction v = true ∧ isNavigationStackAction v = true ∧
      isNavigationTabAction v = false) ∧
    (∃ v, isNavigationResetAction v = true ∧ isNavigationStackAction v = true ∧
      isNavigationTabAction v = false) := by
  refine ⟨fun v => ?_, fun v h => ?_, fun v h => ?_, fun v h => ⟨?_, ?_⟩, ?_, ?_⟩
  · simp only [isNavigationAction, isNavigationStackAction, isNavigationTabAction]
    cases isNavigationInitAction v <;> cases isNavigationNavigateAction v <;>
      cases isNavigationBackAction v <;> cases isNavigationSetParamsAction v <;>
      cases isNavigationResetAction v <;> rfl
  · simp [isNavigationStackAction, h]
  · simp only [isNavigationTabAction, Bool.or_eq_true] at h
    simp only [isNavigationStackAction, Bool.or_eq_true]
    tauto
  · simp only [isNavigationStackAction, Bool.or_eq_true]
    tauto
  · cases ht : isNavigationTabAction v
    · rfl
    · simp only [isNavigationTabAction, Bool.or_eq_true] at ht
      have hs : tagOf v = some "Navigation/SET_PARAMS" ∨ tagOf v = some "Navigation/RESET" :=
        h.elim (fun h => Or.inl (tagOf_setParams h)) (fun h => Or.inr (tagOf_reset h))
      rcases ht with (ht | ht) | ht
      · have := tagOf_init ht
        rcases hs with hs | hs <;>
          · rw [this] at hs
            exact absurd hs (by decide)
      · have := tagOf_navigate ht
        rcases hs with hs | hs <;>
          · rw [this] at hs
            exact absurd hs (by decide)
      · have := tagOf_back ht
        rcases hs with hs | hs <;>
          · rw [this] at hs
            exact absurd hs (by decide)
  · exact ⟨obj [("type", str "Navigation/SET_PARAMS"), ("key", str "id-1")], by decide⟩
  · exact ⟨obj [("type", str "Navigation/RESET"), ("index", num 0), ("actions", arr [])],
      by decide⟩

/-! ## The shape of states -/

theorem hasIndexAndRoutes_obj (props : List (String × JsVal)) :
    hasIndexAndRoutes (obj props) =
      (required isNumber (props.lookup "index") &&
        required (isArrayOf isNavigationRoute) (props.lookup "routes")) := by
  simp only [hasIndexAndRoutes, routesProp_eq]
  congr 2
  funext v
  exact routeArray_eq v

theorem hasIndexAndRoutes_shape {s : JsVal} (h : hasIndexAndRoutes s = true) :
    (∃ i, s.get "index" = some (num i)) ∧
    ∃ rs, s.get "routes" = some (arr rs) ∧ ∀ r ∈ rs, isNavigationRoute r = true := by
  cases s with
  | obj props =>
    rw [hasIndexAndRoutes_obj] at h
    simp only [Bool.and_eq_true] at h
    obtain ⟨hi, hr⟩ := h
    constructor
    · cases hl : props.lookup "index" with
      | none => simp [hl, required] at hi
      | some v =>
        cases v <;> simp [hl, required, isNumber] at hi
        exact ⟨_, hl⟩
    · cases hl : props.lookup "routes" with
      | none => simp [hl, required] at hr
      | some v =>
        cases v <;> simp [hl, required, isArrayOf] at hr
        exact ⟨_, hl, hr⟩
  | _ => simp [hasIndexAndRoutes] at h

theorem isNavigationState_mk (i : Int) (rs : List JsVal)
    (h : ∀ r ∈ rs, isNavigationRoute r = true) :
    isNavigationState (obj [("index", num i), ("routes", arr rs)]) = true := by
  simp only [isNavigationState, hasIndexAndRoutes_obj]
  simp [List.lookup, required, isNumber, isArrayOf]
  exact h

/-- C2 (as the code has it): a `NavigationState`, and likewise a
`NavigationStateRoute`, has a numeric `index` and an array `routes` of
`NavigationRoute`s; the type relates the two in no way, every integer index
together with every array of routes being a `NavigationState`. -/
theorem navigationState_index_and_routes (s : JsVal)
    (h : isNavigationState s = true ∨ isNavigationStateRoute s = true) :
    ((∃ i, s.get "index" = some (num i)) ∧
      ∃ rs, s.get "routes" = some (arr rs) ∧ ∀ r ∈ rs, isNavigationRoute r = true) ∧
    ∀ (i : Int) (rs : List JsVal), (∀ r ∈ rs, isNavigationRoute r = true) →
      isNavigationState (obj [("index", num i), ("routes", arr rs)]) = true := by
  refine ⟨?_, isNavigationState_mk⟩
  rcases h with h | h
  · exact hasIndexAndRoutes_shape h
  · simp only [isNavigationStateRoute, Bool.and_eq_true] at h
    exact hasIndexAndRoutes_shape h.2

theorem navigationState_index_and_routes_witness :
    ((∃ i, (obj [("index", num 0), ("routes", arr [obj [("key", str "id-0"),
        ("routeName", str "Home")]])]).get "index" = some (num i)) ∧
      ∃ rs, (obj [("index", num 0), ("routes", arr [obj [("key", str "id-0"),
        ("routeName", str "Home")]])]).get "routes" = some (arr rs) ∧
        ∀ r ∈ rs, isNavigationRoute r = true) ∧
    ∀ (i : Int) (rs : List JsVal), (∀ r ∈ rs, isNavigationRoute r = true) →
      isNavigationState (obj [("index", num i), ("routes", arr rs)]) = true :=
  navigationState_index_and_routes
    (obj [("index", num 0), ("routes", arr [obj [("key", str "id-0"),
      ("routeName", str "Home")]])])
    (Or.inl (by decide))

/-- C2 (as stated) fails: `{ index: 0, routes: [] }` and
`{ index: 2, routes: [Home] }` are `NavigationState`s, the second also with its
leaf properties a `NavigationStateRoute`, and in none is `index` a position of
`routes`. -/
theorem navigationState_index_out_of_range :
    isNavigationState (obj [("index", num 0), ("routes", arr [])]) = true ∧
    indexInRange (obj [("index", num 0), ("routes", arr [])]) = false ∧
    isNavigationState (obj [("index", num 2), ("routes", arr [obj [("key", str "id-0"),
      ("routeName", str "Home")]])]) = true ∧
    indexInRange (obj [("index", num 2), ("routes", arr [obj [("key", str "id-0"),
      ("routeName", str "Home")]])]) = false ∧
    isNavigationStateRoute (obj [("key", str "id-1"), ("routeName", str "Tabs"),
      ("index", num (-1)), ("routes", arr [])]) = true ∧
    indexInRange (obj [("key", str "id-1"), ("routeName", str "Tabs"),
      ("index", num (-1)), ("routes", arr [])]) = false := by
  decide

theorem isNavigationRoute_key {r : JsVal} (h : isNavigationRoute r = true) :
    (∃ k, r.get "key" = some (str k)) ∧ ∃ n, r.get "routeName" = some (str n) := by
  have hl : isNavigationLeafRoute r = true := by
    rw [isNavigationRoute_eq_union, isNavigationStateRoute] at h
    cases hh : isNavigationLeafRoute r
    · simp [hh] at h
    · rfl
  cases r with
  | obj props =>
    simp only [isNavigationLeafRoute, Bool.and_eq_true] at hl
    obtain ⟨⟨⟨hk, hn⟩, -⟩, -⟩ := hl
    constructor
    · cases hq : props.lookup "key" with
      | none => simp [hq, required] at hk
      | some v =>
        cases v <;> simp [hq, required, isString] at hk
        exact ⟨_, hq⟩
    · cases hq : props.lookup "routeName" with
      | none => simp [hq, required] at hn
      | some v =>
        cases v <;> simp [hq, required, isString] at hn
        exact ⟨_, hq⟩
  | _ => simp [isNavigationLeafRoute] at hl

/-- C3 (as the code has it): every route among the `routes` of a
`NavigationState` or `NavigationStateRoute` carries a string `key` and a string
`routeName`; the type does not ask sibling keys to differ, any route may
occur twice among the routes of a `NavigationState`. -/
theorem navigationState_routes_have_keys (s : JsVal)
    (h : isNavigationState s = true ∨ isNavigationStateRoute s = true) :
    (∀ r ∈ routesOf s,
      (∃ k, r.get "key" = some (str k)) ∧ ∃ n, r.get "routeName" = some (str n)) ∧
    ∀ r, isNavigationRoute r = true →
      isNavigationState (obj [("index", num 0), ("routes", arr [r, r])]) = true := by
  constructor
  · have hs : hasIndexAndRoutes s = true := by
      rcases h with h | h
      · exact h
      · simp only [isNavigationStateRoute, Bool.and_eq_true] at h
        exact h.2
    obtain ⟨-, rs, hrs, hall⟩ := hasIndexAndRoutes_shape hs
    intro r hr
    simp only [routesOf, hrs] at hr
    exact isNavigationRoute_key (hall r hr)
  · intro r hr
    apply isNavigationState_mk
    intro x hx
    simp only [List.mem_cons, List.mem_singleton, or_self, List.not_mem_nil, or_false] at hx
    rw [hx]
    exact hr

theorem navigationState_routes_have_keys_witness :
    (∀ r ∈ routesOf (obj [("index", num 1), ("routes", arr [
        obj [("key", str "id-0"), ("routeName", str "Home")],
        obj [("key", str "id-1"), ("routeName", str "Profile")]])]),
      (∃ k, r.get "key" = some (str k)) ∧ ∃ n, r.get "routeName" = some (str n)) ∧
    ∀ r, isNavigationRoute r = true →
      isNavigationState (obj [("index", num 0), ("routes", arr [r, r])]) = true :=
  navigationState_routes_have_keys
    (obj [("index", num 1), ("routes", arr [
      obj [("key", str "id-0"), ("routeName", str "Home")],
      obj [("key", str "id-1"), ("routeName", str "Profile")]])])
    (Or.inl (by decide))

/-- C3 (as stated) fails: `{ index: 0, routes: [a, a'] }` with both routes keyed
`'id-0'` is a `NavigationState` whose two sibling keys coincide. -/
theorem navigationState_duplicate_keys :
    isNavigationState (obj [("index", num 0), ("routes", arr [
      obj [("key", str "id-0"), ("routeName", str "Home")],
      obj [("key", str "id-0"), ("routeName", str "Profile")]])]) = true ∧
    siblingKeysDistinct (obj [("index", num 0), ("routes", arr [
      obj [("key", str "id-0"), ("routeName", str "Home")],
      obj [("key", str "id-0"), ("routeName", str "Profile")]])]) = false := by
  decide

/-! ## Sub-actions of `navigate` -/

theorem isNavigationNavigateAction_withSubAction (routeName : String) (a : JsVal) :
    isNavigationNavigateAction (withSubAction routeName a) = isNavigationNavigateAction a := by
  simp [withSubAction, isNavigationNavigateAction, hasTag, List.lookup, required, optional,
    isString, actionProp]

theorem navigateAccepts_subAction (routeName : String) (a : JsVal) :
    navigateAccepts (str routeName) none (some a) = isNavigationAction a := by
  simp [navigateAccepts, isString, optional]

/-- C9 (as the code has it): an action that can be stored as the `action` of a
`NavigationNavigateAction` is accepted by `navigate` as its third argument; an
action that `navigate` accepts can be stored so exactly when it is tagged
`'Navigation/NAVIGATE'`. -/
theorem navigate_subAction_stored (routeName : String) (a : JsVal) :
    (isNavigationNavigateAction (withSubAction routeName a) = true →
      navigateAccepts (str routeName) none (some a) = true) ∧
    (navigateAccepts (str routeName) none (some a) = true →
      (isNavigationNavigateAction (withSubAction routeName a) = true ↔
        tagOf a = some "Navigation/NAVIGATE")) := by
  rw [isNavigationNavigateAction_withSubAction, navigateAccepts_subAction]
  refine ⟨fun h => ?_, fun h => ⟨tagOf_navigate, fun ht => ?_⟩⟩
  · exact (isNavigationAction_iff a).2 (Or.inr (Or.inl h))
  · rcases (isNavigationAction_iff a).1 h with h | h | h | h | h
    · exact absurd ((tagOf_init h).symm.trans ht) (by decide)
    · exact h
    · exact absurd ((tagOf_back h).symm.trans ht) (by decide)
    · exact absurd ((tagOf_setParams h).symm.trans ht) (by decide)
    · exact absurd ((tagOf_reset h).symm.trans ht) (by decide)

/-- C9 (as stated) fails: `navigate('Profile', undefined, { type:
'Navigation/BACK' })` is accepted, while `{ type: 'Navigation/NAVIGATE',
routeName: 'Profile', action: { type: 'Navigation/BACK' } }` is not a
`NavigationNavigateAction`. -/
theorem navigate_accepts_back_not_stored :
    navigateAccepts (str "Profile") none (some (obj [("type", str "Navigation/BACK")])) = true ∧
    isNavigationNavigateAction
      (withSubAction "Profile" (obj [("type", str "Navigation/BACK")])) = false := by
  decide


/-! ## State routes as leaf routes extended with a state -/

theorem lookup_pick (v : JsVal) (names : List String) (k : String) :
    (pick v names).lookup k = if k ∈ names then v.get k else none := by
  induction names with
  | nil => simp [pick]
  | cons n rest ih =>
    have hcons : pick v (n :: rest) =
        match v.get n with
        | some x => (n, x) :: pick v rest
        | none => pick v rest := by
      cases hv : v.get n <;> simp [pick, hv]
    rw [hcons]
    by_cases hk : k = n
    · subst hk
      cases hv : v.get k with
      | none =>
        simp only [ih, hv]
        simp
      | some x => simp [hv]
    · cases hv : v.get n with
      | none => simp [ih, hk]
      | some x =>
        simp only [List.lookup_cons]
        have : (k == n) = false := by simpa using hk
        simp [this, ih, hk]

theorem get_pick (v : JsVal) (names : List String) (k : String) :
    (obj (pick v names)).get k = if k ∈ names then v.get k else none :=
  lookup_pick v names k

theorem pick_congr {v w : JsVal} {names : List String}
    (h : ∀ k ∈ names, v.get k = w.get k) : pick v names = pick w names := by
  unfold pick
  apply List.filterMap_congr
  intro k hk
  rw [h k hk]

theorem get_stateRouteOf (l s : JsVal) (k : String) :
    (stateRouteOf l s).get k =
      if k ∈ leafRouteProps then l.get k else if k ∈ stateProps then s.get k else none := by
  simp only [stateRouteOf, get, List.lookup_append, lookup_pick]
  by_cases h1 : k ∈ leafRouteProps
  · have h2 : k ∉ stateProps := by
      simp only [leafRouteProps, stateProps, List.mem_cons, List.mem_singleton,
        List.not_mem_nil, or_false] at h1 ⊢
      rcases h1 with h | h | h | h <;> subst h <;> decide
    simp [h1, h2]
  · simp [h1]

theorem isNavigationLeafRoute_get (props : List (String × JsVal)) :
    isNavigationLeafRoute (obj props) =
      (required isString ((obj props).get "key") &&
      required isString ((obj props).get "routeName") &&
      optional isString ((obj props).get "path") &&
      optional isNavigationParams ((obj props).get "params")) := rfl

theorem hasIndexAndRoutes_get (props : List (String × JsVal)) :
    hasIndexAndRoutes (obj props) =
      (required isNumber ((obj props).get "index") &&
        required (isArrayOf isNavigationRoute) ((obj props).get "routes")) :=
  hasIndexAndRoutes_obj props

theorem isObj_of_leafRoute {v : JsVal} (h : isNavigationLeafRoute v = true) :
    ∃ props, v = obj props := by
  cases v with
  | obj props => exact ⟨props, rfl⟩
  | _ => simp [isNavigationLeafRoute] at h

theorem isObj_of_hasIndexAndRoutes {v : JsVal} (h : hasIndexAndRoutes v = true) :
    ∃ props, v = obj props := by
  cases v with
  | obj props => exact ⟨props, rfl⟩
  | _ => simp [hasIndexAndRoutes] at h

theorem isNavigationLeafRoute_leafRouteOf {r : JsVal} (h : isNavigationLeafRoute r = true) :
    isNavigationLeafRoute (leafRouteOf r) = true := by
  obtain ⟨props, rfl⟩ := isObj_of_leafRoute h
  rw [isNavigationLeafRoute_get] at h
  rw [leafRouteOf, isNavigationLeafRoute_get]
  simpa [get_pick, leafRouteProps] using h

theorem isNavigationState_stateOf {r : JsVal} (h : hasIndexAndRoutes r = true) :
    isNavigationState (stateOf r) = true := by
  obtain ⟨props, rfl⟩ := isObj_of_hasIndexAndRoutes h
  rw [hasIndexAndRoutes_get] at h
  rw [isNavigationState, stateOf, hasIndexAndRoutes_get]
  simpa [get_pick, stateProps] using h

theorem isNavigationStateRoute_stateRouteOf {l s : JsVal}
    (hl : isNavigationLeafRoute l = true) (hs : isNavigationState s = true) :
    isNavigationStateRoute (stateRouteOf l s) = true := by
  obtain ⟨lp, rfl⟩ := isObj_of_leafRoute hl
  obtain ⟨sp, rfl⟩ := isObj_of_hasIndexAndRoutes hs
  rw [isNavigationLeafRoute_get] at hl
  rw [isNavigationState, hasIndexAndRoutes_get] at hs
  have e : stateRouteOf (obj lp) (obj sp) =
      obj (pick (obj lp) leafRouteProps ++ pick (obj sp) stateProps) := rfl
  rw [isNavigationStateRoute, Bool.and_eq_true]
  constructor
  · rw [e, isNavigationLeafRoute_get, ← e]
    simp only [get_stateRouteOf]
    simpa [leafRouteProps, stateProps] using hl
  · rw [e, hasIndexAndRoutes_get, ← e]
    simp only [get_stateRouteOf]
    simpa [leafRouteProps, stateProps] using hs

theorem leafRouteOf_stateRouteOf (l s : JsVal) :
    leafRouteOf (stateRouteOf l s) = leafRouteOf l := by
  unfold leafRouteOf
  congr 1
  apply pick_congr
  intro k hk
  rw [get_stateRouteOf, if_pos hk]

theorem stateOf_stateRouteOf (l s : JsVal) :
    stateOf (stateRouteOf l s) = stateOf s := by
  unfold stateOf
  congr 1
  apply pick_congr
  intro k hk
  have h1 : k ∉ leafRouteProps := by
    simp only [leafRouteProps, stateProps, List.mem_cons, List.mem_singleton,
      List.not_mem_nil, or_false] at hk ⊢
    rcases hk with h | h <;> subst h <;> decide
  rw [get_stateRouteOf, if_neg h1, if_pos hk]

theorem get_stateRouteOf_split (r : JsVal) (k : String)
    (hk : k ∈ leafRouteProps ++ stateProps) :
    (stateRouteOf (leafRouteOf r) (stateOf r)).get k = r.get k := by
  rw [get_stateRouteOf]
  by_cases h1 : k ∈ leafRouteProps
  · rw [if_pos h1, leafRouteOf, get_pick, if_pos h1]
  · have h2 : k ∈ stateProps := by
      rcases List.mem_append.1 hk with h | h
      · exact absurd h h1
      · exact h
    rw [if_neg h1, if_pos h2, stateOf, get_pick, if_pos h2]

theorem pick_pick (v : JsVal) (names : List String) :
    pick (obj (pick v names)) names = pick v names := by
  apply pick_congr
  intro k hk
  rw [get_pick, if_pos hk]

/-- C4 (as the code has it): a state route is exactly a value that is both a
leaf route and a navigation state.  Splitting a state route gives a leaf route
(key, routeName, optional path, optional params) and a state (index, routes);
extending a leaf route with a state gives a state route.  The two conversions
are inverse on the six declared properties: splitting after extending returns
the declared properties of the two parts, extending after splitting agrees
with the state route on all six, and each round trip is the identity on the
values the other conversion produces.  A route is a leaf route or a state
route. -/
theorem stateRoute_is_leafRoute_with_state :
    (∀ r, isNavigationStateRoute r = true ↔
      isNavigationLeafRoute r = true ∧ isNavigationState r = true) ∧
    (∀ r, isNavigationStateRoute r = true →
      isNavigationLeafRoute (leafRouteOf r) = true ∧ isNavigationState (stateOf r) = true) ∧
    (∀ l s, isNavigationLeafRoute l = true → isNavigationState s = true →
      isNavigationStateRoute (stateRouteOf l s) = true) ∧
    (∀ l s, leafRouteOf (stateRouteOf l s) = leafRouteOf l ∧
      stateOf (stateRouteOf l s) = stateOf s) ∧
    (∀ r k, k ∈ leafRouteProps ++ stateProps →
      (stateRouteOf (leafRouteOf r) (stateOf r)).get k = r.get k) ∧
    (∀ l s, stateRouteOf (leafRouteOf (stateRouteOf l s)) (stateOf (stateRouteOf l s)) =
      stateRouteOf l s) ∧
    (∀ r, leafRouteOf (stateRouteOf (leafRouteOf r) (stateOf r)) = leafRouteOf r ∧
      stateOf (stateRouteOf (leafRouteOf r) (stateOf r)) = stateOf r) ∧
    (∀ r, isNavigationRoute r = true ↔
      isNavigationLeafRoute r = true ∨ isNavigationStateRoute r = true) := by
  refine ⟨fun r => ?_, fun r h => ?_, fun l s hl hs => ?_, fun l s => ?_, fun r k hk => ?_,
    fun l s => ?_, fun r => ?_, fun r => ?_⟩
  · simp [isNavigationStateRoute, isNavigationState]
  · simp only [isNavigationStateRoute, Bool.and_eq_true] at h
    exact ⟨isNavigationLeafRoute_leafRouteOf h.1, isNavigationState_stateOf h.2⟩
  · exact isNavigationStateRoute_stateRouteOf hl hs
  · exact ⟨leafRouteOf_stateRouteOf l s, stateOf_stateRouteOf l s⟩
  · exact get_stateRouteOf_split r k hk
  · rw [leafRouteOf_stateRouteOf, stateOf_stateRouteOf]
    simp only [stateRouteOf, leafRouteOf, stateOf, pick_pick]
  · rw [leafRouteOf_stateRouteOf, stateOf_stateRouteOf]
    exact ⟨by simp only [leafRouteOf, pick_pick], by simp only [stateOf, pick_pick]⟩
  · rw [isNavigationRoute_eq_union, Bool.or_eq_true]

theorem stateRoute_is_leafRoute_with_state_witness :
    isNavigationLeafRoute (leafRouteOf (obj [("key", str "id-1"), ("routeName", str "Tabs"),
      ("index", num 0), ("routes", arr [obj [("key", str "id-2"),
        ("routeName", str "Feed")]])])) = true ∧
    isNavigationState (stateOf (obj [("key", str "id-1"), ("routeName", str "Tabs"),
      ("index", num 0), ("routes", arr [obj [("key", str "id-2"),
        ("routeName", str "Feed")]])])) = true ∧
    stateRouteOf
      (leafRouteOf (obj [("key", str "id-1"), ("routeName", str "Tabs"),
        ("index", num 0), ("routes", arr [obj [("key", str "id-2"),
          ("routeName", str "Feed")]])]))
      (stateOf (obj [("key", str "id-1"), ("routeName", str "Tabs"),
        ("index", num 0), ("routes", arr [obj [("key", str "id-2"),
          ("routeName", str "Feed")]])])) =
      obj [("key", str "id-1"), ("routeName", str "Tabs"),
        ("index", num 0), ("routes", arr [obj [("key", str "id-2"),
          ("routeName", str "Feed")]])] :=
  ⟨(stateRoute_is_leafRoute_with_state.2.1 _ (by decide)).1,
    (stateRoute_is_leafRoute_with_state.2.1 _ (by decide)).2, rfl⟩

/-! ## The reducer of a router -/

/-- C6 (as the code has it): `getStateForAction` takes an action and a previous
state that may be absent (`undefined` or `null`), and its result is
`undefined`, `null` or a state: a new state or `null` as the claim has it, or
else `undefined`.  The signature does not say when `null` is returned; both the
reducer that always returns `null` and the one that always returns `undefined`
have it. -/
theorem getStateForAction_result (isState isAction : JsVal → Bool)
    (getStateForAction : JsVal → Option JsVal → Option JsVal)
    (hf : IsGetStateForAction isState isAction getStateForAction)
    (action : JsVal) (lastState : Option JsVal)
    (ha : isAction action = true) (hs : optional (maybe isState) lastState = true) :
    (getStateForAction action lastState = none ∨
      getStateForAction action lastState = some null ∨
      ∃ newState, getStateForAction action lastState = some newState ∧
        isState newState = true) ∧
    (stateOrNull isState (getStateForAction action lastState) = true ∨
      getStateForAction action lastState = none) ∧
    (optional (maybe isState) none = true ∧ optional (maybe isState) (some null) = true) ∧
    IsGetStateForAction isState isAction (fun _ _ => some null) ∧
    IsGetStateForAction isState isAction (fun _ _ => none) := by
  have hr := hf action lastState ha hs
  refine ⟨?_, ?_, ⟨rfl, rfl⟩, fun _ _ _ _ => rfl, fun _ _ _ _ => rfl⟩
  · cases hq : getStateForAction action lastState with
    | none => exact Or.inl rfl
    | some r =>
      rw [hq] at hr
      cases r with
      | null => exact Or.inr (Or.inl rfl)
      | bool b => exact Or.inr (Or.inr ⟨_, rfl, hr⟩)
      | num n => exact Or.inr (Or.inr ⟨_, rfl, hr⟩)
      | str t => exact Or.inr (Or.inr ⟨_, rfl, hr⟩)
      | arr items => exact Or.inr (Or.inr ⟨_, rfl, hr⟩)
      | obj props => exact Or.inr (Or.inr ⟨_, rfl, hr⟩)
  · cases hq : getStateForAction action lastState with
    | none => exact Or.inr rfl
    | some r =>
      rw [hq] at hr
      cases r <;> exact Or.inl hr

theorem getStateForAction_result_witness :
    (sameStateReducer (obj [("type", str "Navigation/INIT")]) none = none ∨
      sameStateReducer (obj [("type", str "Navigation/INIT")]) none = some null ∨
      ∃ newState, sameStateReducer (obj [("type", str "Navigation/INIT")]) none =
          some newState ∧
        isNavigationState newState = true) ∧
    (stateOrNull isNavigationState
        (sameStateReducer (obj [("type", str "Navigation/INIT")]) none) = true ∨
      sameStateReducer (obj [("type", str "Navigation/INIT")]) none = none) ∧
    (optional (maybe isNavigationState) none = true ∧
      optional (maybe isNavigationState) (some null) = true) ∧
    IsGetStateForAction isNavigationState isNavigationAction (fun _ _ => some null) ∧
    IsGetStateForAction isNavigationState isNavigationAction (fun _ _ => none) :=
  getStateForAction_result isNavigationState isNavigationAction sameStateReducer
    (fun _ _ _ hs => hs) (obj [("type", str "Navigation/INIT")]) none (by decide) rfl

/-- C6 (as stated) fails: the reducer `(action, lastState) => undefined` has the
type of `getStateForAction` for `NavigationState` and `NavigationAction`, and
on the action `{ type: 'Navigation/INIT' }` with no previous state its result
is neither a state nor `null`. -/
theorem getStateForAction_may_return_undefined :
    IsGetStateForAction isNavigationState isNavigationAction undefinedReducer ∧
    isNavigationAction (obj [("type", str "Navigation/INIT")]) = true ∧
    optional (maybe isNavigationState) none = true ∧
    stateOrNull isNavigationState
      (undefinedReducer (obj [("type", str "Navigation/INIT")]) none) = false :=
  ⟨fun _ _ _ _ => rfl, by decide, rfl, rfl⟩

end JsVal

namespace Heap

/-! ## Navigate actions in an object graph -/

theorem navigateAction_unfold {h : Heap} {v : HVal} (hv : NavigationNavigateAction h v) :
    hasTagAt h v "Navigation/NAVIGATE" = true ∧
    requiredProp isStr (read h v "routeName") = true ∧
    optionalProp (isParamsAt h) (read h v "params") = true := by
  have h1 := hv 1
  simp only [isNavigateActionAt, Bool.and_eq_true] at h1
  exact ⟨h1.1.1.1, h1.1.1.2, h1.1.2⟩

theorem navigateAction_tag_routeName {h : Heap} {v : HVal}
    (hv : NavigationNavigateAction h v) :
    read h v "type" = some (HVal.str "Navigation/NAVIGATE") ∧
    ∃ name, read h v "routeName" = some (HVal.str name) := by
  obtain ⟨ht, hn, -⟩ := navigateAction_unfold hv
  constructor
  · unfold hasTagAt at ht
    split at ht
    · rename_i t heq
      have : t = "Navigation/NAVIGATE" := by simpa using ht
      subst this
      exact heq
    · simp at ht
  · cases hq : read h v "routeName" with
    | none => simp [hq, requiredProp] at hn
    | some x =>
      cases x <;> simp [hq, requiredProp, isStr] at hn
      exact ⟨_, rfl⟩

theorem navigateAction_subAction {h : Heap} {v a : HVal}
    (hv : NavigationNavigateAction h v) (ha : read h v "action" = some a) :
    NavigationNavigateAction h a := by
  intro depth
  have h1 := hv (depth + 1)
  simp only [isNavigateActionAt, Bool.and_eq_true, ha, optionalProp] at h1
  exact h1.2

theorem followAction_navigateAction {h : Heap} {n : Nat} {v w : HVal}
    (hv : NavigationNavigateAction h v) (hf : followAction h n v = some w) :
    NavigationNavigateAction h w := by
  induction n generalizing v with
  | zero =>
    simp only [followAction, Option.some.injEq] at hf
    exact hf ▸ hv
  | succ n ih =>
    simp only [followAction] at hf
    cases ha : read h v "action" with
    | none => simp [ha] at hf
    | some a =>
      simp only [ha] at hf
      exact ih (navigateAction_subAction hv ha) hf

theorem navigateAction_minimal (name : String) :
    NavigationNavigateAction
      [HObj.obj [("type", HVal.str "Navigation/NAVIGATE"), ("routeName", HVal.str name)]]
      (HVal.ref 0) := by
  intro depth
  cases depth with
  | zero => rfl
  | succ d =>
    simp [isNavigateActionAt, hasTagAt, read, propsAt, List.lookup, requiredProp,
      optionalProp, isStr]

theorem selfAction_navigateAction :
    NavigationNavigateAction selfActionHeap (HVal.ref 0) := by
  intro depth
  induction depth with
  | zero => rfl
  | succ d ih =>
    simp only [isNavigateActionAt, Bool.and_eq_true]
    refine ⟨⟨⟨by decide, by decide⟩, by decide⟩, ?_⟩
    exact ih

theorem selfAction_follow (n : Nat) :
    followAction selfActionHeap n (HVal.ref 0) = some (HVal.ref 0) := by
  induction n with
  | zero => rfl
  | succ n ih => exact ih

/-- The check rejects what the declaration rejects: a BACK action stored as the
`action` of a NAVIGATE action, and a value that is not an object. -/
theorem navigateAction_rejects :
    ¬ NavigationNavigateAction
      [HObj.obj [("type", HVal.str "Navigation/NAVIGATE"), ("routeName", HVal.str "Home"),
        ("action", HVal.ref 1)],
       HObj.obj [("type", HVal.str "Navigation/BACK")]]
      (HVal.ref 0) ∧
    ¬ NavigationNavigateAction selfActionHeap (HVal.str "Home") ∧
    ¬ NavigationNavigateAction selfActionHeap (HVal.ref 1) :=
  ⟨fun h => absurd (h 2) (by decide), fun h => absurd (h 1) (by decide),
    fun h => absurd (h 1) (by decide)⟩

theorem nestedAction_navigateAction :
    NavigationNavigateAction nestedActionHeap (HVal.ref 0) := by
  intro depth
  cases depth with
  | zero => rfl
  | succ d =>
    simp only [isNavigateActionAt, Bool.and_eq_true]
    refine ⟨⟨⟨by decide, by decide⟩, by decide⟩, ?_⟩
    cases d with
    | zero => rfl
    | succ e =>
      show isNavigateActionAt nestedActionHeap (e + 1) (HVal.ref 1) = true
      simp only [isNavigateActionAt, Bool.and_eq_true]
      exact ⟨⟨⟨by decide, by decide⟩, by decide⟩, rfl⟩

/-- C5 (as the code has it): a `NavigationNavigateAction` always has a string
`routeName`; `params` and `action` may both be left out; every value reached by
following `action` any number of times is again a `NavigationNavigateAction`,
tagged `'Navigation/NAVIGATE'` and with a `routeName`.  Nothing is said of the
length of the chain. -/
theorem navigateAction_chain (h : Heap) (v : HVal) (hv : NavigationNavigateAction h v) :
    (∃ name, read h v "routeName" = some (HVal.str name)) ∧
    (∀ name, NavigationNavigateAction
      [HObj.obj [("type", HVal.str "Navigation/NAVIGATE"), ("routeName", HVal.str name)]]
      (HVal.ref 0)) ∧
    (∀ n w, followAction h n v = some w →
      NavigationNavigateAction h w ∧
      read h w "type" = some (HVal.str "Navigation/NAVIGATE") ∧
      ∃ name, read h w "routeName" = some (HVal.str name)) := by
  refine ⟨(navigateAction_tag_routeName hv).2, navigateAction_minimal, fun n w hf => ?_⟩
  have hw := followAction_navigateAction hv hf
  exact ⟨hw, navigateAction_tag_routeName hw⟩

theorem navigateAction_chain_witness :
    (∃ name, read nestedActionHeap (HVal.ref 0) "routeName" = some (HVal.str name)) ∧
    (∀ name, NavigationNavigateAction
      [HObj.obj [("type", HVal.str "Navigation/NAVIGATE"), ("routeName", HVal.str name)]]
      (HVal.ref 0)) ∧
    (∀ n w, followAction nestedActionHeap n (HVal.ref 0) = some w →
      NavigationNavigateAction nestedActionHeap w ∧
      read nestedActionHeap w "type" = some (HVal.str "Navigation/NAVIGATE") ∧
      ∃ name, read nestedActionHeap w "routeName" = some (HVal.str name)) :=
  navigateAction_chain nestedActionHeap (HVal.ref 0) nestedAction_navigateAction

/-- C5 (as stated) fails: the action `a` built by `a = { type:
'Navigation/NAVIGATE', routeName: 'Home' }; a.action = a` is a
`NavigationNavigateAction`, and following `action` from it never comes to an
end. -/
theorem navigateAction_chain_unending :
    NavigationNavigateAction selfActionHeap (HVal.ref 0) ∧
    ¬ ∃ n, followAction selfActionHeap n (HVal.ref 0) = none := by
  refine ⟨selfAction_navigateAction, ?_⟩
  rintro ⟨n, hn⟩
  rw [selfAction_follow n] at hn
  exact Option.noConfusion hn

/-! ## States in an object graph -/

theorem selfRoute_navigationState : NavigationState selfRouteHeap (HVal.ref 0) := by
  intro depth
  have hl : isLeafRouteAt selfRouteHeap (HVal.ref 0) = true := by decide
  have hr : read selfRouteHeap (HVal.ref 0) "routes" = some (HVal.ref 1) := rfl
  have hi : itemsAt selfRouteHeap (HVal.ref 1) = some [HVal.ref 0] := rfl
  simp only [isStateAt, Bool.and_eq_true]
  refine ⟨by decide, by decide, ?_⟩
  rw [hr]
  simp only [requiredProp, isArrayOfAt, hi, List.all_cons, List.all_nil, Bool.and_true]
  cases depth with
  | zero => rfl
  | succ d => simp only [isRouteAt, hl, Bool.true_or]

end Heap

namespace JsVal

/-- C4 (as stated) fails.  The state route `{ key: 'id-1', routeName: 'Tabs',
title: 'Feed', index: 0, routes: [] }` is not what splitting and then extending
it gives, and the leaf route `{ key: 'id-1', routeName: 'Tabs', title: 'Feed' }`
is not the leaf part of its extension by `{ index: 0, routes: [] }`: the
property `title` is lost, so the conversions are not inverse.  And the routes
under a state need not form a finite tree: after `s.routes.push(s)` the state
`s` is a `NavigationState` that is one of its own routes. -/
theorem stateRoute_roundTrip_not_identity :
    (isNavigationStateRoute (obj [("key", str "id-1"), ("routeName", str "Tabs"),
        ("title", str "Feed"), ("index", num 0), ("routes", arr [])]) = true ∧
      stateRouteOf
        (leafRouteOf (obj [("key", str "id-1"), ("routeName", str "Tabs"),
          ("title", str "Feed"), ("index", num 0), ("routes", arr [])]))
        (stateOf (obj [("key", str "id-1"), ("routeName", str "Tabs"),
          ("title", str "Feed"), ("index", num 0), ("routes", arr [])])) ≠
        obj [("key", str "id-1"), ("routeName", str "Tabs"),
          ("title", str "Feed"), ("index", num 0), ("routes", arr [])]) ∧
    (isNavigationLeafRoute (obj [("key", str "id-1"), ("routeName", str "Tabs"),
        ("title", str "Feed")]) = true ∧
      isNavigationState (obj [("index", num 0), ("routes", arr [])]) = true ∧
      leafRouteOf (stateRouteOf
        (obj [("key", str "id-1"), ("routeName", str "Tabs"), ("title", str "Feed")])
        (obj [("index", num 0), ("routes", arr [])])) ≠
        obj [("key", str "id-1"), ("routeName", str "Tabs"), ("title", str "Feed")]) ∧
    (Heap.NavigationState Heap.selfRouteHeap (HVal.ref 0) ∧
      HVal.ref 0 ∈ Heap.routesAt Heap.selfRouteHeap (HVal.ref 0)) := by
  refine ⟨⟨by decide, fun h => ?_⟩, ⟨by decide, by decide, fun h => ?_⟩,
    ⟨Heap.selfRoute_navigationState, ?_⟩⟩
  · have := congrArg (fun v => (JsVal.get v "title").isSome) h
    exact absurd this (by decide)
  · have := congrArg (fun v => (JsVal.get v "title").isSome) h
    exact absurd this (by decide)
  · show HVal.ref 0 ∈ [HVal.ref 0]
    exact List.mem_singleton.2 rfl

end JsVal
